import Mathlib

/-!
Verification of the Stripe dashboard tutorial application.

This file contains a shallow embedding, in Lean 4, of the behaviourally
relevant parts of the application:

* the numeric path of the product-creation form, including an exact model
  of IEEE binary64 arithmetic (the Python float semantics behind
  int(float(amount) * 100) in pages/create_product.py);
* the create_product callback of pages/create_product.py: validation,
  the Product.create / Price.create call sequence, the success and error
  outputs, and which form components are (not) written back;
* the catalog page pages/home.py: the module-import-time fetch of
  products and prices, the card list, and the buy-button callback that
  creates checkout sessions;
* the analytics page pages/analytics.py: the module-import-time fetch of
  the 30-day payment window, the revenue metrics, the per-day grouping,
  and the insight lines;
* app.py startup (credential installation) and the standalone
  connectivity-check script stripe_tests/stripe_api_basics.py.

The external Stripe service is modelled as an oracle (StripeBehavior)
mapping each request to a response or an exception; the embedding
threads an explicit log of the provider calls that the code issues.
HTML/CSS presentation is abstracted: rendered views are modelled as
structures carrying exactly the data the markup displays.
-/

namespace StripeTutorial

/-! ### IEEE binary64 (Python float) arithmetic, modelled exactly over ℚ

Python floats are IEEE binary64 values; every finite binary64 value is a
rational number m * 2^(e-52) with |m| < 2^53. We model a float as the
rational it denotes, and float operations as exact rational operations
followed by rounding to the nearest representable value (ties to even).
The model covers the normal range, which contains every quantity handled
by the application (currency amounts). -/

/-- Round a rational to the nearest integer, ties to even (the IEEE
rounding of a scaled significand). -/
def rne (x : ℚ) : ℤ :=
  let f := ⌊x⌋
  let r := x - (f : ℚ)
  if r < 1/2 then f
  else if 1/2 < r then f + 1
  else if f % 2 = 0 then f else f + 1

/-- Fuel-bounded computation of the floor of log₂ of a positive
rational: repeatedly halve or double until the value lies in [1, 2).
The fuel only bounds the recursion; 1100 steps cover the whole binary64
exponent range. -/
def log2fuel : Nat → ℚ → ℤ → ℤ
  | 0, _, acc => acc
  | n+1, q, acc =>
      if q < 1 then log2fuel n (q * 2) (acc - 1)
      else if q < 2 then acc
      else log2fuel n (q / 2) (acc + 1)

/-- Floor of log₂ for positive rationals. -/
def floorLog2 (q : ℚ) : ℤ := log2fuel 1100 q 0

/-- Round a positive rational to the binary64 grid: scale so that the
significand occupies 53 bits, round to nearest (ties to even), and scale
back. -/
def roundDoubleAux (q : ℚ) : ℚ :=
  let e := floorLog2 q
  ((rne (q * 2 ^ (52 - e)) : ℤ) : ℚ) * 2 ^ (e - 52)

/-- The binary64 value nearest to a rational q (normal range; ties to
even); zero and negatives are handled by symmetry. This is the value a
Python float literal or arithmetic result denotes. -/
def roundDouble (q : ℚ) : ℚ :=
  if q = 0 then 0
  else if q < 0 then - roundDoubleAux (-q) else roundDoubleAux q

/-- Python int() applied to a float: truncation toward zero. -/
def pyInt (q : ℚ) : ℤ := if 0 ≤ q then ⌊q⌋ else -⌊-q⌋

/-- The cents computation of the create_product callback
(pages/create_product.py line 259): amount_cents = int(float(amount) * 100).
The callback receives the amount as a float already, so float(amount) is
the identity; the multiplication by 100 is a binary64 multiplication
(exact product, then rounding), and int() truncates. -/
def amount_cents (amount : ℚ) : ℤ := pyInt (roundDouble (amount * 100))

/-- Correctness of the fuel-bounded log₂: whenever 2^e ≤ q < 2^(e+1) and
the fuel covers |e|, the recursion returns acc + e. -/
lemma log2fuel_spec : ∀ (n : ℕ) (q : ℚ) (acc e : ℤ), 2 ^ e ≤ q → q < 2 ^ (e + 1) →
    e.natAbs ≤ n → log2fuel n q acc = acc + e := by
  intro n
  induction n with
  | zero =>
    intro q acc e h1 h2 hn
    have he : e = 0 := by omega
    subst he
    have h1a : (1 : ℚ) ≤ q := by simpa using h1
    have h2a : q < 2 := by
      have h20 : ((2:ℚ) ^ ((0:ℤ) + 1)) = 2 := by norm_num
      rw [h20] at h2; exact h2
    simp [log2fuel, not_lt_of_ge h1a, h2a]
  | succ n ih =>
    intro q acc e h1 h2 hn
    rcases lt_trichotomy e 0 with hneg | h0 | hpos
    · have hq1 : q < 1 := by
        have hle : ((2:ℚ) ^ (e + 1)) ≤ 2 ^ (0:ℤ) := by
          apply zpow_le_zpow_right₀ (by norm_num) (by omega)
        calc q < 2 ^ (e+1) := h2
          _ ≤ 2 ^ (0:ℤ) := hle
          _ = 1 := by norm_num
      have step : log2fuel (n+1) q acc = log2fuel n (q * 2) (acc - 1) := by
        simp [log2fuel, hq1]
      have ha : (2:ℚ) ^ (e+1) ≤ q * 2 := by
        rw [zpow_add_one₀ (by norm_num : (2:ℚ) ≠ 0)]
        exact mul_le_mul_of_nonneg_right h1 (by norm_num)
      have hb : q * 2 < 2 ^ (e + 1 + 1) := by
        rw [zpow_add_one₀ (by norm_num : (2:ℚ) ≠ 0) (e+1)]
        exact mul_lt_mul_of_pos_right h2 (by norm_num)
      have hc : (e+1).natAbs ≤ n := by omega
      rw [step, ih (q*2) (acc-1) (e+1) ha hb hc]
      ring
    · subst h0
      have h1a : (1 : ℚ) ≤ q := by simpa using h1
      have h2a : q < 2 := by
        have h20 : ((2:ℚ) ^ ((0:ℤ) + 1)) = 2 := by norm_num
        rw [h20] at h2; exact h2
      simp [log2fuel, not_lt_of_ge h1a, h2a]
    · have hq2 : (2:ℚ) ≤ q := by
        calc (2:ℚ) = 2 ^ (1:ℤ) := by norm_num
          _ ≤ 2 ^ e := by exact zpow_le_zpow_right₀ (by norm_num) (by omega)
          _ ≤ q := h1
      have step : log2fuel (n+1) q acc = log2fuel n (q / 2) (acc + 1) := by
        have hnl1 : ¬ q < 1 := by linarith
        have hnl2 : ¬ q < 2 := by linarith
        simp [log2fuel, hnl1, hnl2]
      have ha : (2:ℚ) ^ (e-1) ≤ q / 2 := by
        rw [le_div_iff₀ (by norm_num : (0:ℚ) < 2)]
        calc (2:ℚ) ^ (e-1) * 2 = 2 ^ e := by
              rw [← zpow_add_one₀ (by norm_num : (2:ℚ) ≠ 0)]; ring_nf
          _ ≤ q := h1
      have hb : q / 2 < 2 ^ (e - 1 + 1) := by
        rw [div_lt_iff₀ (by norm_num : (0:ℚ) < 2)]
        calc q < 2 ^ (e+1) := h2
          _ = 2 ^ (e - 1 + 1) * 2 := by
              rw [← zpow_add_one₀ (by norm_num : (2:ℚ) ≠ 0)]; ring_nf
      have hc : (e-1).natAbs ≤ n := by omega
      rw [step, ih (q/2) (acc+1) (e-1) ha hb hc]
      ring

/-- Evaluation rule for floorLog2 from a bracketing of the argument. -/
lemma floorLog2_eval (q : ℚ) (e : ℤ) (h1 : 2 ^ e ≤ q) (h2 : q < 2 ^ (e + 1))
    (hn : e.natAbs ≤ 1100) : floorLog2 q = e := by
  have h := log2fuel_spec 1100 q 0 e h1 h2 hn
  simpa [floorLog2] using h

/-- Evaluation rule for roundDouble on a positive rational with known
binade and known rounded significand. -/
lemma roundDouble_eval (q : ℚ) (e m : ℤ) (h1 : 2 ^ e ≤ q) (h2 : q < 2 ^ (e + 1))
    (hn : e.natAbs ≤ 1100) (hm : rne (q * 2 ^ (52 - e)) = m) :
    roundDouble q = (m : ℚ) * 2 ^ (e - 52) := by
  have hq0 : 0 < q := lt_of_lt_of_le (by positivity) h1
  rw [roundDouble, if_neg (by linarith), if_neg (by linarith), roundDoubleAux,
    floorLog2_eval q e h1 h2 hn]
  rw [hm]

/-- The binary64 value that the creation form delivers for the entered
amount 19.99: the nearest double to 19.99, which is slightly below it. -/
def float19_99 : ℚ := 5626684784446013 * 2 ^ ((4:ℤ) - 52)

/-- The number input value 19.99 is parsed to the binary64 value
float19_99. -/
lemma roundDouble_19_99 : roundDouble (1999/100) = float19_99 := by
  rw [float19_99]
  apply roundDouble_eval (1999/100) 4 5626684784446013
  · norm_num
  · norm_num
  · norm_num
  · norm_num [rne]

/-- Evaluating the cents conversion at the binary64 reading of 19.99:
the float product 19.99 * 100 rounds to 1999 - 2^(-42), and int()
truncates it to 1998. -/
lemma amount_cents_19_99 : amount_cents float19_99 = 1998 := by
  rw [amount_cents]
  have hprod : roundDouble (float19_99 * 100)
      = (8791694975696895 : ℚ) * 2 ^ ((10:ℤ) - 52) := by
    apply roundDouble_eval _ 10 8791694975696895
    · norm_num [float19_99]
    · norm_num [float19_99]
    · norm_num
    · norm_num [rne, float19_99]
  rw [hprod, pyInt]
  norm_num

/-- The form value 19.99 is not zero (used to pass the falsiness check of
the validation guard). -/
lemma float19_99_ne_zero : float19_99 ≠ 0 := by
  norm_num [float19_99]

/-- Small sanity evaluation used by witnesses: an amount of exactly 1
converts to 100 cents (1 and 100 are exactly representable). -/
lemma amount_cents_one : amount_cents 1 = 100 := by
  rw [amount_cents]
  have h := roundDouble_eval ((1:ℚ) * 100) 6 (100 * 2 ^ 46)
    (by norm_num) (by norm_num) (by norm_num) (by norm_num [rne])
  have h100 : roundDouble ((1:ℚ) * 100) = 100 := by
    rw [h]; push_cast; norm_num
  rw [h100, pyInt]
  norm_num

/-! ### Stripe object model and provider oracle

Requests and responses of the provider calls that the application issues,
taken from the arguments the source passes and the fields it reads. -/

/-- The recurring attribute of a price (billing interval). -/
structure Recurring where
  interval : String
deriving DecidableEq

/-- Keyword arguments assembled for stripe.Product.create
(pages/create_product.py lines 262-274). The form supports one metadata
key/value pair. -/
structure ProductData where
  name : String
  description : Option String
  images : Option (List String)
  metadata : Option (String × String)
deriving DecidableEq

/-- Fields of a Stripe product object that the application reads. -/
structure ProductObj where
  id : String
  name : String
  description : Option String
  images : List String
deriving DecidableEq

/-- Keyword arguments assembled for stripe.Price.create
(pages/create_product.py lines 280-291). -/
structure PriceData where
  product : String
  unit_amount : ℤ
  currency : String
  nickname : Option String
  recurring : Option Recurring
deriving DecidableEq

/-- Fields of a Stripe price object that the application reads.
unit_amount is optional because the code guards it for truthiness. -/
structure PriceObj where
  id : String
  unit_amount : Option ℤ
  currency : String
  recurring : Option Recurring
deriving DecidableEq

/-- Fields of a Stripe payment intent that the analytics page reads. -/
structure PaymentIntentObj where
  id : String
  status : String
  amount : ℤ
  currency : String
  created : ℤ
  description : Option String
deriving DecidableEq

/-- Keyword arguments assembled for stripe.checkout.Session.create
(pages/home.py lines 170-179). A line item is a (price id, quantity)
pair. -/
structure SessionData where
  payment_method_types : List String
  line_items : List (String × ℕ)
  mode : String
  success_url : String
  cancel_url : String
deriving DecidableEq

/-- Fields of a checkout session that the application reads. -/
structure SessionObj where
  id : String
  url : String
deriving DecidableEq

/-- Fields of the Stripe account object read by the connectivity check. -/
structure AccountObj where
  email : String
  id : String
  country : String
  default_currency : String
deriving DecidableEq

/-- A Python exception raised by a provider call. authErr and apiConnErr
model stripe.error.AuthenticationError and stripe.error.APIConnectionError
(both subclasses of StripeError), stripeErr any other StripeError, and
otherErr any non-Stripe exception. -/
inductive PyErr
  | authErr (msg : String)
  | apiConnErr (msg : String)
  | stripeErr (msg : String)
  | otherErr (msg : String)
deriving DecidableEq

/-- Whether an exception is caught by except stripe.error.StripeError. -/
def PyErr.isStripeError : PyErr → Bool
  | .otherErr _ => false
  | _ => true

/-- The message str(e) carried by the exception. -/
def PyErr.msg : PyErr → String
  | .authErr m => m
  | .apiConnErr m => m
  | .stripeErr m => m
  | .otherErr m => m

/-- One provider call issued by the application, with its arguments. -/
inductive StripeCall
  | productCreate (pd : ProductData)
  | priceCreate (pr : PriceData)
  | productList (limit : ℕ)
  | priceList (product : String) (limit : ℕ)
  | customerList (limit : ℕ)
  | paymentIntentList (limit : ℕ) (created_gte : Option ℤ)
  | sessionCreate (sd : SessionData)
  | accountRetrieve
deriving DecidableEq

/-- The provider oracle: the response (or exception) the Stripe service
returns for each request. A fixed oracle models the provider state during
one call sequence. -/
structure StripeBehavior where
  productCreate : ProductData → Except PyErr ProductObj
  priceCreate : PriceData → Except PyErr PriceObj
  productList : ℕ → Except PyErr (List ProductObj)
  priceList : String → ℕ → Except PyErr (List PriceObj)
  customerList : ℕ → Except PyErr (List String)
  paymentIntentList : ℕ → Option ℤ → Except PyErr (List PaymentIntentObj)
  sessionCreate : SessionData → Except PyErr SessionObj
  accountRetrieve : Except PyErr AccountObj

/-! ### The creation form (pages/create_product.py)

The create_product callback has nine Outputs: the message area, the
recently-created list, and seven form components (name, description,
image, amount, nickname, metadata key, metadata value). The price-type
radio, the billing-interval dropdown and the currency dropdown are read
as State but are not Outputs, so the callback can never write them. -/

/-- The values the callback receives from the form components. Dash text
components deliver None or a string; both falsy values are modelled by
the empty string, which the code treats identically. The number input
delivers a float or None (for an empty or unparseable entry), modelled
by an optional rational that denotes the binary64 value received. -/
structure CreateFormInput where
  name : String
  description : String
  image : String
  price_type : String
  interval : String
  amount : Option ℚ
  currency : String
  nickname : String
  meta_key : String
  meta_value : String
deriving DecidableEq

/-- A Dash callback output slot: either dash.no_update (the component
keeps its value) or a new value written to the component. -/
inductive Upd (α : Type)
  | noUpdate
  | set (v : α)
deriving DecidableEq

/-- The price line of a recently-created-products card: either the
placeholder or the amount, currency and optional interval that the
formatted string displays. -/
inductive PriceInfo
  | noPrice
  | oneTimePrice (amount : ℚ) (currency : String)
  | recurringPrice (amount : ℚ) (currency : String) (interval : String)
deriving DecidableEq

/-- One card of the recently-created-products list. -/
structure RecentCard where
  name : String
  description : String
  price_info : PriceInfo
  id : String
deriving DecidableEq

/-- The rendered recently-created-products area. -/
inductive RecentView
  | errorText (msg : String)
  | noProducts
  | cards (cards : List RecentCard)
deriving DecidableEq

/-- The price line computed for the first price of a product
(pages/create_product.py lines 344-355): amount is unit_amount / 100
when unit_amount is truthy and 0 otherwise; currency is uppercased; the
interval is shown when the price is recurring. -/
def price_info_of : List PriceObj → PriceInfo
  | [] => .noPrice
  | price :: _ =>
      let amount : ℚ := match price.unit_amount with
        | some c => if c ≠ 0 then (c : ℚ) / 100 else 0
        | none => 0
      match price.recurring with
      | some r => .recurringPrice amount price.currency.toUpper r.interval
      | none => .oneTimePrice amount price.currency.toUpper

/-- The per-product loop of fetch_recent_products: one Price.list call
per product; an exception aborts the loop and propagates. Returns the
cards (or the exception) together with the calls issued. -/
def recent_cards (b : StripeBehavior) :
    List ProductObj → Except PyErr (List RecentCard) × List StripeCall
  | [] => (.ok [], [])
  | p :: rest =>
      match b.priceList p.id 1 with
      | .error e => (.error e, [.priceList p.id 1])
      | .ok prices =>
          let card : RecentCard :=
            { name := p.name
              description := p.description.getD "No description"
              price_info := price_info_of prices
              id := p.id }
          match recent_cards b rest with
          | (.error e, calls) => (.error e, .priceList p.id 1 :: calls)
          | (.ok cards, calls) => (.ok (card :: cards), .priceList p.id 1 :: calls)

/-- fetch_recent_products (pages/create_product.py lines 330-378): list
the 5 most recent products and the first price of each; any exception is
caught and rendered as an inline error text. -/
def fetch_recent_products (b : StripeBehavior) : RecentView × List StripeCall :=
  match b.productList 5 with
  | .error e => (.errorText ("Error fetching products: " ++ e.msg), [.productList 5])
  | .ok products =>
      if products.isEmpty then (.noProducts, [.productList 5])
      else
        match recent_cards b products with
        | (.error e, calls) =>
            (.errorText ("Error fetching products: " ++ e.msg), .productList 5 :: calls)
        | (.ok cards, calls) => (.cards cards, .productList 5 :: calls)

/-- The data summarized by the success confirmation
(pages/create_product.py lines 297-307): product id and name, price id,
and the price line showing the entered amount, the uppercased currency,
and a per-interval suffix exactly for recurring prices. -/
structure SuccessInfo where
  product_id : String
  product_name : String
  price_id : String
  amount_shown : ℚ
  currency_shown : String
  per_interval : Option String
deriving DecidableEq

/-- The message area after a submission. -/
inductive CreateMessage
  | validationError
  | stripeError (msg : String)
  | genericError (msg : String)
  | success (info : SuccessInfo)
deriving DecidableEq

/-- Whether the message is the success confirmation. -/
def CreateMessage.isSuccess : CreateMessage → Bool
  | .success _ => true
  | _ => false

/-- The nine Outputs of the create_product callback. -/
structure CreateOutput where
  message : CreateMessage
  recent : Upd RecentView
  name : Upd String
  description : Upd String
  image : Upd String
  amount : Upd (Option ℚ)
  nickname : Upd String
  meta_key : Upd String
  meta_value : Upd String
deriving DecidableEq

/-- An error return of the callback: only the message area changes; the
other eight Outputs are dash.no_update. -/
def error_output (m : CreateMessage) : CreateOutput :=
  { message := m, recent := .noUpdate, name := .noUpdate, description := .noUpdate
    image := .noUpdate, amount := .noUpdate, nickname := .noUpdate
    meta_key := .noUpdate, meta_value := .noUpdate }

/-- The local validation failure (lines 250-255). -/
def validation_output : CreateOutput := error_output .validationError

/-- The message chosen by the two except clauses (lines 315-327):
StripeError renders the Stripe error, anything else the generic error. -/
def exception_output (e : PyErr) : CreateOutput :=
  if e.isStripeError then error_output (.stripeError e.msg)
  else error_output (.genericError e.msg)

/-- The product keyword arguments (lines 262-274): description, images
and metadata are included only when truthy (metadata needs both the key
and the value). -/
def product_data (inp : CreateFormInput) : ProductData :=
  { name := inp.name
    description := if inp.description ≠ "" then some inp.description else none
    images := if inp.image ≠ "" then some [inp.image] else none
    metadata := if inp.meta_key ≠ "" ∧ inp.meta_value ≠ "" then
        some (inp.meta_key, inp.meta_value) else none }

/-- The price keyword arguments (lines 280-291): the new product id, the
cents amount, the currency; nickname when truthy; a recurring attribute
exactly when the price type is recurring. -/
def price_data (inp : CreateFormInput) (product : ProductObj) (cents : ℤ) : PriceData :=
  { product := product.id
    unit_amount := cents
    currency := inp.currency
    nickname := if inp.nickname ≠ "" then some inp.nickname else none
    recurring := if inp.price_type = "recurring" then some ⟨inp.interval⟩ else none }

/-- The create_product callback (pages/create_product.py lines 244-327),
returning its nine Outputs and the provider calls issued. The guard
(line 250) rejects a falsy name (empty) or a falsy amount (None for an
empty or unparseable entry, and the number 0). On a valid submission the
product is created first; only if that call returns is the price created,
referencing the returned product id; on full success the confirmation is
shown, the recently-created list is refreshed, and the seven form-field
Outputs are cleared. Each exception path writes only the message area. -/
def create_product (b : StripeBehavior) (inp : CreateFormInput) :
    CreateOutput × List StripeCall :=
  match inp.amount with
  | none => (validation_output, [])
  | some a =>
      if inp.name = "" ∨ a = 0 then (validation_output, [])
      else
        match b.productCreate (product_data inp) with
        | .error e => (exception_output e, [.productCreate (product_data inp)])
        | .ok product =>
            match b.priceCreate (price_data inp product (amount_cents a)) with
            | .error e =>
                (exception_output e,
                 [.productCreate (product_data inp),
                  .priceCreate (price_data inp product (amount_cents a))])
            | .ok price =>
                ({ message := .success
                      { product_id := product.id
                        product_name := product.name
                        price_id := price.id
                        amount_shown := a
                        currency_shown := inp.currency.toUpper
                        per_interval := if inp.price_type = "recurring" then
                            some inp.interval else none }
                   recent := .set (fetch_recent_products b).1
                   name := .set "", description := .set "", image := .set ""
                   amount := .set none, nickname := .set ""
                   meta_key := .set "", meta_value := .set "" },
                 [.productCreate (product_data inp),
                  .priceCreate (price_data inp product (amount_cents a))]
                   ++ (fetch_recent_products b).2)

/-- The values held by the ten form components of the creation page. -/
structure FormState where
  name : String
  description : String
  image : String
  price_type : String
  interval : String
  amount : Option ℚ
  currency : String
  nickname : String
  meta_key : String
  meta_value : String
deriving DecidableEq

/-- The State arguments the callback reads from the form components. -/
def form_input (st : FormState) : CreateFormInput :=
  { name := st.name, description := st.description, image := st.image
    price_type := st.price_type, interval := st.interval, amount := st.amount
    currency := st.currency, nickname := st.nickname
    meta_key := st.meta_key, meta_value := st.meta_value }

/-- How Dash applies the callback Outputs to the page: each of the seven
form-field Outputs overwrites its component unless it is dash.no_update.
The price-type, billing-interval and currency components are not Outputs
of the callback, so their values always survive a submission. -/
def apply_create_output (st : FormState) (out : CreateOutput) : FormState :=
  { st with
    name := match out.name with | .noUpdate => st.name | .set v => v
    description := match out.description with | .noUpdate => st.description | .set v => v
    image := match out.image with | .noUpdate => st.image | .set v => v
    amount := match out.amount with | .noUpdate => st.amount | .set v => v
    nickname := match out.nickname with | .noUpdate => st.nickname | .set v => v
    meta_key := match out.meta_key with | .noUpdate => st.meta_key | .set v => v
    meta_value := match out.meta_value with | .noUpdate => st.meta_value | .set v => v }

/-! ### The catalog page (pages/home.py)

The module body of pages/home.py runs once, when the module is imported
at application startup: it fetches the products data (lines 107-113) and
builds the static page layout from it (lines 116-134). Dash serves that
layout object for every later visit of the page; no code of the module
runs again on a view load. -/

/-- One row of the products_df dataframe (pages/home.py lines 24-34).
The recurring column holds the strings Yes or No, as in the source. -/
structure ProductRow where
  product_id : String
  product_name : String
  description : String
  price_id : String
  unit_amount : ℚ
  currency : String
  recurring : String
  image : Option String
deriving DecidableEq

/-- The rows contributed by one product: one row per listed price. -/
def price_rows (product : ProductObj) (prices : List PriceObj) : List ProductRow :=
  prices.map fun price =>
    { product_id := product.id
      product_name := product.name
      description := product.description.getD "No description"
      price_id := price.id
      unit_amount := match price.unit_amount with
        | some c => if c ≠ 0 then (c : ℚ) / 100 else 0
        | none => 0
      currency := price.currency.toUpper
      recurring := if price.recurring.isSome then "Yes" else "No"
      image := product.images.head? }

/-- The product loop of fetch_products_data: one Price.list call per
product; an exception propagates to the caller. -/
def collect_rows (b : StripeBehavior) :
    List ProductObj → Except PyErr (List ProductRow)
  | [] => .ok []
  | p :: rest =>
      match b.priceList p.id 10 with
      | .error e => .error e
      | .ok prices =>
          match collect_rows b rest with
          | .error e => .error e
          | .ok rows => .ok (price_rows p prices ++ rows)

/-- fetch_products_data (pages/home.py lines 15-36): list up to 100
products and, for each, up to 10 prices, producing one row per
(product, price) pair. -/
def fetch_products_data (b : StripeBehavior) : Except PyErr (List ProductRow) :=
  match b.productList 100 with
  | .error e => .error e
  | .ok products => collect_rows b products

/-- One catalog card (pages/home.py lines 47-100): image or placeholder,
name, description, the displayed amount and currency, the
subscription/one-time label, and the price id carried by the buy button.
The two-decimal string formatting of the amount is abstracted by
carrying the amount itself. -/
structure CatalogCard where
  image : String
  name : String
  description : String
  amount : ℚ
  currency : String
  label : String
  price_id : String
deriving DecidableEq

/-- The rendered cards area: a placeholder when no rows exist, otherwise
one card per row. -/
inductive CatalogView
  | noProducts
  | cards (cards : List CatalogCard)
deriving DecidableEq

/-- create_product_cards (pages/home.py lines 39-104). -/
def create_product_cards (rows : List ProductRow) : CatalogView :=
  if rows.isEmpty then .noProducts
  else .cards (rows.map fun row =>
    { image := row.image.getD "https://via.placeholder.com/300x200?text=No+Image"
      name := row.product_name
      description := row.description
      amount := row.unit_amount
      currency := row.currency
      label := if row.recurring = "Yes" then "Subscription" else "One-time payment"
      price_id := row.price_id })

/-- The module-level state of pages/home.py after import: the fetched
dataframe and the error message of the import-time try/except
(lines 107-113). -/
structure HomeModule where
  products_df : List ProductRow
  error_message : Option String
deriving DecidableEq

/-- The module body of pages/home.py, executed once at import: fetch the
products data, catching any exception into an inline error message and
an empty dataframe. -/
def home_module_startup (b : StripeBehavior) : HomeModule :=
  match fetch_products_data b with
  | .ok rows => { products_df := rows, error_message := none }
  | .error e =>
      { products_df := []
        error_message := some ("Error fetching Stripe products: " ++ e.msg) }

/-- The data displayed by the catalog page: the optional error banner
and the cards area (pages/home.py lines 116-134). -/
structure HomePage where
  error_banner : Option String
  catalog : CatalogView
deriving DecidableEq

/-- The static layout built from the module state at import time. -/
def home_page (m : HomeModule) : HomePage :=
  { error_banner := m.error_message
    catalog := create_product_cards m.products_df }

/-- Serving a catalog view load: Dash returns the layout object stored
at import. No code of pages/home.py runs, so no provider call is made
and the provider state current at the time of the request (bNow) is
never consulted. -/
def serve_home_view (m : HomeModule) (_bNow : StripeBehavior) :
    HomePage × List StripeCall :=
  (home_page m, [])

/-- The loop of handle_buy_button (pages/home.py lines 155-163): the
index of the first button whose cumulative click count is positive. -/
def first_clicked : List ℕ → Option ℕ
  | [] => none
  | c :: rest => if c > 0 then some 0 else (first_clicked rest).map (· + 1)

/-- The checkout-session arguments built for a dataframe row
(pages/home.py lines 170-179): one line item with quantity 1, mode
subscription exactly when the row is recurring, and the fixed redirect
URLs back to the catalog root with the success/canceled markers. -/
def buy_session_data (row : ProductRow) : SessionData :=
  { payment_method_types := ["card"]
    line_items := [(row.price_id, 1)]
    mode := if row.recurring = "Yes" then "subscription" else "payment"
    success_url := "http://127.0.0.1:2245/?success=true"
    cancel_url := "http://127.0.0.1:2245/?canceled=true" }

/-- handle_buy_button (pages/home.py lines 143-188). The callback reads
the module-level products_df. It receives the cumulative click counts of
all buy buttons and selects the first index with a positive count; which
button actually triggered the callback is not consulted beyond the
emptiness guard. Out-of-range indexing and session-creation failures are
caught, logged and swallowed (PreventUpdate, modelled as none). On
success the session URL is returned (and opened). -/
def handle_buy_button (b : StripeBehavior) (m : HomeModule) (n_clicks : List ℕ) :
    Option String × List StripeCall :=
  if n_clicks.all (· = 0) then (none, [])
  else
    match first_clicked n_clicks with
    | none => (none, [])
    | some i =>
        match m.products_df[i]? with
        | none => (none, [])
        | some row =>
            let sd := buy_session_data row
            match b.sessionCreate sd with
            | .error _ => (none, [.sessionCreate sd])
            | .ok s => (some s.url, [.sessionCreate sd])

/-! ### The analytics page (pages/analytics.py)

As with the catalog page, the module body runs once at import: it
fetches the 30-day payment window (lines 150-156), computes the summary
metrics (lines 158-166) and builds the static layout (lines 168-201). -/

/-- One row of the revenue_df dataframe (pages/analytics.py lines
29-34): local calendar date, amount in major units, currency,
description. -/
structure PaymentRecord where
  date : ℤ
  amount : ℚ
  currency : String
  description : String
deriving DecidableEq

/-- The calendar date of a creation timestamp,
datetime.fromtimestamp(created).date(), modelled as the epoch day
(floor division by 86400; the timezone offset is abstracted to UTC — the
aggregation identities proved below are independent of the offset). -/
def local_date (created : ℤ) : ℤ := Int.fdiv created 86400

/-- fetch_revenue_data (pages/analytics.py lines 16-36): list up to 100
payment intents created in the trailing 30-day window, keep those with
status succeeded, and project them to records with the amount converted
to major units. -/
def fetch_revenue_data (b : StripeBehavior) (now : ℤ) :
    Except PyErr (List PaymentRecord) :=
  let thirty_days_ago := now - 30 * 86400
  match b.paymentIntentList 100 (some thirty_days_ago) with
  | .error e => .error e
  | .ok payments =>
      .ok ((payments.filter (fun p => p.status == "succeeded")).map fun p =>
        { date := local_date p.created
          amount := (p.amount : ℚ) / 100
          currency := p.currency.toUpper
          description := p.description.getD "Payment" })

/-- The module-level state of pages/analytics.py after import. -/
structure AnalyticsModule where
  revenue_df : List PaymentRecord
  error_message : Option String
deriving DecidableEq

/-- The module body of pages/analytics.py, executed once at import. -/
def analytics_module_startup (b : StripeBehavior) (now : ℤ) : AnalyticsModule :=
  match fetch_revenue_data b now with
  | .ok df => { revenue_df := df, error_message := none }
  | .error e =>
      { revenue_df := []
        error_message := some ("Error fetching Stripe revenue data: " ++ e.msg) }

/-- Total revenue (pages/analytics.py lines 159-164): 0 for an empty
dataframe, otherwise the sum of the amount column. -/
def total_revenue (df : List PaymentRecord) : ℚ :=
  if df.isEmpty then 0 else (df.map (·.amount)).sum

/-- Total transaction count (lines 160-165). -/
def total_transactions (df : List PaymentRecord) : ℕ :=
  if df.isEmpty then 0 else df.length

/-- Average transaction (lines 161-166): 0 for an empty dataframe,
otherwise the mean of the amount column. -/
def avg_transaction (df : List PaymentRecord) : ℚ :=
  if df.isEmpty then 0 else (df.map (·.amount)).sum / df.length

/-- The distinct dates of the dataframe, the keys of groupby(date). -/
def dates_of (df : List PaymentRecord) : List ℤ :=
  (df.map (·.date)).dedup

/-- The summed amount of one groupby(date) group. -/
def day_sum (df : List PaymentRecord) (d : ℤ) : ℚ :=
  ((df.filter (fun r => r.date == d)).map (·.amount)).sum

/-- The transaction count of one groupby(date) group. -/
def day_count (df : List PaymentRecord) (d : ℤ) : ℕ :=
  (df.filter (fun r => r.date == d)).length

/-- The revenue chart (create_revenue_chart, lines 39-112): the no-data
placeholder for an empty dataframe, otherwise the per-day revenue and
volume series over the grouped dates. -/
inductive ChartView
  | noData
  | series (dates : List ℤ) (revenue : List ℚ) (volume : List ℕ)
deriving DecidableEq

/-- create_revenue_chart on the module dataframe. -/
def create_revenue_chart (df : List PaymentRecord) : ChartView :=
  if df.isEmpty then .noData
  else .series (dates_of df) ((dates_of df).map (day_sum df))
    ((dates_of df).map (day_count df))

/-- The three Key Insights lines (lines 189-198): busiest day count
(0 when there is no data), best day revenue and average transactions per
day (placeholders when there is no data). The average divides the total
transaction count by the fixed denominator 30. -/
structure Insights where
  busiest : ℕ
  best_day : Option ℚ
  avg_per_day : Option ℚ
deriving DecidableEq

/-- The insights computed from the module dataframe. -/
def insights_of (df : List PaymentRecord) : Insights :=
  { busiest := if df.isEmpty then 0
      else ((dates_of df).map (day_count df)).foldr max 0
    best_day := if df.isEmpty then none
      else some (((dates_of df).map (day_sum df)).foldr max 0)
    avg_per_day := if df.isEmpty then none
      else some ((df.length : ℚ) / 30) }

/-- The data displayed by the analytics page. -/
structure AnalyticsPage where
  error_banner : Option String
  total_revenue : ℚ
  total_transactions : ℕ
  avg_transaction : ℚ
  chart : ChartView
  insights : Insights
deriving DecidableEq

/-- The static analytics layout built from the module state at import
(lines 168-201). -/
def analytics_page (m : AnalyticsModule) : AnalyticsPage :=
  { error_banner := m.error_message
    total_revenue := total_revenue m.revenue_df
    total_transactions := total_transactions m.revenue_df
    avg_transaction := avg_transaction m.revenue_df
    chart := create_revenue_chart m.revenue_df
    insights := insights_of m.revenue_df }

/-- Serving an analytics view load: the stored layout is returned; no
code of the module runs and no provider call is made. -/
def serve_analytics_view (m : AnalyticsModule) (_bNow : StripeBehavior) :
    AnalyticsPage × List StripeCall :=
  (analytics_page m, [])

/-! ### Application startup (app.py) and the connectivity check
(stripe_tests/stripe_api_basics.py) -/

/-- The process environment. -/
def Env : Type := String → Option String

/-- The credential configuration after app.py line 10:
stripe.api_key = os.environ.get(STRIPE_SECRET_KEY). The value is
installed as-is; no presence or format check is performed. -/
structure AppConfig where
  api_key : Option String
deriving DecidableEq

/-- app.py startup, lines 1-15. -/
def app_startup (env : Env) : AppConfig :=
  { api_key := env "STRIPE_SECRET_KEY" }

/-- The process state after app.py finishes importing the page modules:
the installed credential and the two module states, each produced by the
import-time fetch the pages perform. The sdk argument gives the
behaviour of the Stripe client as a function of the installed key (with
an absent or invalid key, real calls raise AuthenticationError). -/
structure AppBoot where
  config : AppConfig
  home : HomeModule
  analytics : AnalyticsModule

/-- Booting the application: install the credential unchecked, then run
the page module bodies, which issue their provider fetches whatever the
credential is. -/
def app_boot (env : Env) (sdk : Option String → StripeBehavior) (now : ℤ) : AppBoot :=
  let cfg := app_startup env
  { config := cfg
    home := home_module_startup (sdk cfg.api_key)
    analytics := analytics_module_startup (sdk cfg.api_key) now }

/-- The outcome of the standalone connectivity-check script. The two
exit results are produced before any provider call. -/
inductive ScriptResult
  | exitNoKey
  | exitInvalidKey
  | connected (account : AccountObj) (products : List ProductObj)
      (customers : List String) (payments : List PaymentIntentObj)
  | authFailure (msg : String)
  | networkFailure (msg : String)
  | unexpectedFailure (msg : String)
deriving DecidableEq

/-- The except clauses of the script (lines 77-85): AuthenticationError,
then APIConnectionError, then the generic handler. -/
def script_failure (e : PyErr) : ScriptResult :=
  match e with
  | .authErr m => .authFailure m
  | .apiConnErr m => .networkFailure m
  | .stripeErr m => .unexpectedFailure m
  | .otherErr m => .unexpectedFailure m

/-- stripe_tests/stripe_api_basics.py: the key is read and checked
before any provider call — a missing key exits (lines 20-25), a key with
neither the sk_test_ nor the sk_live_ format exits (lines 27-35); only
then is the key installed and the diagnostic call sequence run
(Account.retrieve, Product.list, Customer.list, PaymentIntent.list). -/
def stripe_api_basics_run (env : Env) (b : StripeBehavior) :
    ScriptResult × List StripeCall :=
  match env "STRIPE_SECRET_KEY" with
  | none => (.exitNoKey, [])
  | some k =>
      if k.startsWith "sk_test_" ∨ k.startsWith "sk_live_" then
        match b.accountRetrieve with
        | .error e => (script_failure e, [.accountRetrieve])
        | .ok account =>
            match b.productList 3 with
            | .error e => (script_failure e, [.accountRetrieve, .productList 3])
            | .ok products =>
                match b.customerList 3 with
                | .error e =>
                    (script_failure e,
                     [.accountRetrieve, .productList 3, .customerList 3])
                | .ok customers =>
                    match b.paymentIntentList 3 none with
                    | .error e =>
                        (script_failure e,
                         [.accountRetrieve, .productList 3, .customerList 3,
                          .paymentIntentList 3 none])
                    | .ok payments =>
                        (.connected account products customers payments,
                         [.accountRetrieve, .productList 3, .customerList 3,
                          .paymentIntentList 3 none])
      else (.exitInvalidKey, [])

/-! ### Concrete fixtures used by witnesses and counterexamples -/

/-- A product object returned by the oracle fixtures. -/
def prodW : ProductObj :=
  { id := "prod_001", name := "Widget", description := some "A widget", images := [] }

/-- A price object returned by the oracle fixtures. -/
def priceW : PriceObj :=
  { id := "price_001", unit_amount := some 100, currency := "usd", recurring := none }

/-- A checkout session returned by the oracle fixtures. -/
def sessW : SessionObj :=
  { id := "cs_001", url := "https://checkout.stripe.com/pay/cs_001" }

/-- An account object returned by the oracle fixtures. -/
def acctW : AccountObj :=
  { email := "owner@example.com", id := "acct_001", country := "US"
    default_currency := "usd" }

/-- An oracle on which every call succeeds and the list calls return no
data. -/
def okBehavior : StripeBehavior :=
  { productCreate := fun _ => .ok prodW
    priceCreate := fun _ => .ok priceW
    productList := fun _ => .ok []
    priceList := fun _ _ => .ok []
    customerList := fun _ => .ok []
    paymentIntentList := fun _ _ => .ok []
    sessionCreate := fun _ => .ok sessW
    accountRetrieve := .ok acctW }

/-- The creation form in its pristine state: all text fields empty, the
defaults selected, no amount entered. -/
def emptyInput : CreateFormInput :=
  { name := "", description := "", image := "", price_type := "one_time"
    interval := "month", amount := none, currency := "usd", nickname := ""
    meta_key := "", meta_value := "" }

/-- The form with a name and a given amount entered. -/
def widget_input (a : Option ℚ) : CreateFormInput :=
  { emptyInput with name := "Widget", amount := a }

/-- A one-time price with no unit amount set, listed for the catalog
fixtures. -/
def priceA : PriceObj :=
  { id := "price_a", unit_amount := none, currency := "usd", recurring := none }

/-- A second one-time price, distinct from priceA. -/
def priceB : PriceObj :=
  { id := "price_b", unit_amount := none, currency := "usd", recurring := none }

/-- An oracle whose catalog holds one product with two prices. -/
def behaviorTwoPrices : StripeBehavior :=
  { okBehavior with
    productList := fun _ => .ok [prodW]
    priceList := fun _ _ => .ok [priceA, priceB] }

/-- An environment with no variables set. -/
def envNone : Env := fun _ => none

/-- A form state with selections away from the defaults, used to observe
which components a successful submission resets. -/
def st7 : FormState :=
  { name := "Widget", description := "", image := "", price_type := "recurring"
    interval := "month", amount := some 1, currency := "eur", nickname := ""
    meta_key := "", meta_value := "" }

/-- A dataframe row fixture for the buy-button witness. -/
def rowFix : ProductRow :=
  { product_id := "prod_x", product_name := "X", description := "No description"
    price_id := "price_x", unit_amount := 5, currency := "USD", recurring := "No"
    image := none }

/-- A one-record revenue dataframe fixture. -/
def exDf : List PaymentRecord :=
  [{ date := 0, amount := 5, currency := "USD", description := "Payment" }]

/-! ### Helper lemmas about the embedded operations -/

/-- Splitting a sum of amounts along a Boolean filter. -/
lemma sum_filter_split (p : PaymentRecord → Bool) (l : List PaymentRecord) :
    ((l.filter p).map (·.amount)).sum
      + ((l.filter (fun r => !(p r))).map (·.amount)).sum
      = (l.map (·.amount)).sum := by
  induction l with
  | nil => simp
  | cons r t ih =>
    cases hp : p r <;> simp [List.filter_cons, hp] <;> linarith [ih]

/-- Filtering by a date d is unaffected by first discarding the records
of a different date k. -/
lemma filter_date_comm (k d : ℤ) (hdk : d ≠ k) (l : List PaymentRecord) :
    (l.filter (fun r => !(r.date == k))).filter (fun r => r.date == d)
      = l.filter (fun r => r.date == d) := by
  induction l with
  | nil => rfl
  | cons r t ih =>
    by_cases h1 : r.date = k
    · have hbk : (r.date == k) = true := by simpa using h1
      have hbd : (r.date == d) = false := by
        simp only [beq_eq_false_iff_ne, ne_eq]
        intro hh
        exact hdk (hh ▸ h1)
      simp [List.filter_cons, hbk, hbd, ih]
    · have hbk : (r.date == k) = false := by simpa using h1
      by_cases h2 : r.date = d
      · have hbd : (r.date == d) = true := by simpa using h2
        simp [List.filter_cons, hbk, hbd, ih]
      · have hbd : (r.date == d) = false := by simpa using h2
        simp [List.filter_cons, hbk, hbd, ih]

/-- The grouped-by-date sums over any duplicate-free list of dates that
covers the dataframe add up to the total of the amount column. -/
lemma day_sum_partition (ks : List ℤ) (l : List PaymentRecord) (hnd : ks.Nodup)
    (hcov : ∀ r ∈ l, r.date ∈ ks) :
    (ks.map (fun d => day_sum l d)).sum = (l.map (·.amount)).sum := by
  induction ks generalizing l with
  | nil =>
    have hl : l = [] := by
      cases l with
      | nil => rfl
      | cons r t => exact absurd (hcov r (by simp)) (by simp)
    subst hl; simp
  | cons k ks ih =>
    have hknotin : k ∉ ks := (List.nodup_cons.mp hnd).1
    have hndk : ks.Nodup := (List.nodup_cons.mp hnd).2
    have hmap : ks.map (fun d => day_sum l d)
        = ks.map (fun d => day_sum (l.filter (fun r => !(r.date == k))) d) := by
      apply List.map_congr_left
      intro d hd
      have hdk : d ≠ k := fun h => hknotin (h ▸ hd)
      rw [day_sum, day_sum, filter_date_comm k d hdk]
    have hcov2 : ∀ r ∈ l.filter (fun r => !(r.date == k)), r.date ∈ ks := by
      intro r hr
      rw [List.mem_filter] at hr
      have hmem := hcov r hr.1
      have hrk : r.date ≠ k := by simpa using hr.2
      rcases List.mem_cons.mp hmem with h | h
      · exact absurd h hrk
      · exact h
    rw [List.map_cons, List.sum_cons, hmap,
      ih (l.filter (fun r => !(r.date == k))) hndk hcov2, day_sum]
    exact sum_filter_split (fun r => r.date == k) l

/-- Every call issued by the list-call loop of fetch_recent_products is
a Price.list call. -/
lemma recent_cards_calls (b : StripeBehavior) :
    ∀ (l : List ProductObj) (c : StripeCall), c ∈ (recent_cards b l).2 →
      ∃ pid n, c = StripeCall.priceList pid n := by
  intro l
  induction l with
  | nil => intro c hc; simp [recent_cards] at hc
  | cons p rest ih =>
    intro c hc
    rw [recent_cards] at hc
    split at hc
    · simp at hc
      exact ⟨p.id, 1, hc⟩
    · split at hc
      · rename_i heq
        rcases List.mem_cons.mp hc with h | h
        · exact ⟨p.id, 1, h⟩
        · exact ih c (by rw [heq]; exact h)
      · rename_i heq
        rcases List.mem_cons.mp hc with h | h
        · exact ⟨p.id, 1, h⟩
        · exact ih c (by rw [heq]; exact h)

/-- Every call issued by fetch_recent_products is a list call; in
particular it never issues a Price.create call. -/
lemma fetch_recent_no_price_create (b : StripeBehavior) (pr : PriceData) :
    StripeCall.priceCreate pr ∉ (fetch_recent_products b).2 := by
  intro hmem
  rw [fetch_recent_products] at hmem
  split at hmem
  · simp at hmem
  · split at hmem
    · simp at hmem
    · split at hmem
      · rename_i heq
        rcases List.mem_cons.mp hmem with h | h
        · exact StripeCall.noConfusion h
        · rcases recent_cards_calls b _ _ (by rw [heq]; exact h) with ⟨pid, n, hc⟩
          exact StripeCall.noConfusion hc
      · rename_i heq
        rcases List.mem_cons.mp hmem with h | h
        · exact StripeCall.noConfusion h
        · rcases recent_cards_calls b _ _ (by rw [heq]; exact h) with ⟨pid, n, hc⟩
          exact StripeCall.noConfusion hc

/-- A positive first-clicked index means the counts are not all zero. -/
lemma first_clicked_not_all_zero (clicks : List ℕ) (i : ℕ)
    (h : first_clicked clicks = some i) : clicks.all (· = 0) = false := by
  induction clicks generalizing i with
  | nil => exact absurd h (by simp [first_clicked])
  | cons c t ih =>
    rw [first_clicked] at h
    by_cases hc : c > 0
    · have hc0 : ¬ c = 0 := by omega
      simp [hc0]
    · rw [if_neg hc] at h
      cases hft : first_clicked t with
      | none => rw [hft] at h; simp at h
      | some j => simp [ih j hft]

/-- Every failure return of the create_product callback writes only the
message area. -/
lemma exception_output_is_error (e : PyErr) :
    ∃ m, exception_output e = error_output m := by
  rw [exception_output]
  by_cases hse : e.isStripeError
  · exact ⟨.stripeError e.msg, by rw [if_pos hse]⟩
  · exact ⟨.genericError e.msg, by rw [if_neg hse]⟩

/-- Every failure return of the create_product callback writes only the
message area. -/
lemma create_product_failure_form (b : StripeBehavior) (inp : CreateFormInput)
    (h : (create_product b inp).1.message.isSuccess = false) :
    ∃ m, (create_product b inp).1 = error_output m := by
  rw [create_product]
  split
  · exact ⟨.validationError, rfl⟩
  · split
    · exact ⟨.validationError, rfl⟩
    · split
      · exact exception_output_is_error _
      · split
        · exact exception_output_is_error _
        · exfalso
          simp_all [create_product, CreateMessage.isSuccess]

/-- A single-row catalog module for the buy-button witness. -/
def mFix : HomeModule := { products_df := [rowFix], error_message := none }

/-- Shape of the provider-call log of one create_product run: empty, a
lone failed Product.create, or Product.create followed by the dependent
Price.create (followed, on full success, by the recent-list calls). -/
lemma create_product_log (b : StripeBehavior) (inp : CreateFormInput) :
    (create_product b inp).2 = []
    ∨ (∃ e, b.productCreate (product_data inp) = .error e
        ∧ (create_product b inp).2 = [.productCreate (product_data inp)])
    ∨ (∃ a product rest, inp.amount = some a
        ∧ b.productCreate (product_data inp) = .ok product
        ∧ (create_product b inp).2
            = StripeCall.productCreate (product_data inp)
                :: StripeCall.priceCreate (price_data inp product (amount_cents a))
                :: rest
        ∧ (rest = [] ∨ rest = (fetch_recent_products b).2)) := by
  rw [create_product]
  split
  · exact Or.inl rfl
  · split
    · exact Or.inl rfl
    · split
      · rename_i e heq
        exact Or.inr (Or.inl ⟨e, heq, rfl⟩)
      · split
        · exact Or.inr (Or.inr ⟨_, _, [], by assumption, by assumption, rfl,
            Or.inl rfl⟩)
        · exact Or.inr (Or.inr ⟨_, _, (fetch_recent_products b).2, by assumption,
            by assumption, rfl, Or.inr rfl⟩)

/-! ### Claim theorems -/

/-- Claim C1 (code-bug evidence). The claim states that the unit_amount
submitted to Price.create equals round(a * 100), exactly, for every
two-decimal amount a, citing 19.99 ↦ 1999. The code computes
int(float(amount) * 100), which truncates the binary64 product: the form
delivers 19.99 as the binary64 value float19_99 (slightly below 19.99),
the float product with 100 is 1999 - 2^(-42), and int() truncates it to
1998. The theorem evaluates the embedded conversion and the full callback
at this failing input: the Price.create call carries unit_amount = 1998,
not round(19.99 * 100) = 1999 (and the code also displays the price back
to the user as 19.99 while having created a 1998-cent price). -/
theorem C1_conversion_truncates_19_99 :
    roundDouble (1999/100) = float19_99
    ∧ amount_cents float19_99 = 1998
    ∧ (create_product okBehavior (widget_input (some float19_99))).2
        = [StripeCall.productCreate (product_data (widget_input (some float19_99))),
           StripeCall.priceCreate
             (price_data (widget_input (some float19_99)) prodW 1998),
           StripeCall.productList 5]
    ∧ (1998 : ℤ) ≠ 1999 := by
  refine ⟨roundDouble_19_99, amount_cents_19_99, ?_, by decide⟩
  have hne : ("Widget" : String) ≠ "" := by decide
  rw [create_product]
  simp [widget_input, emptyInput, okBehavior, fetch_recent_products,
    amount_cents_19_99, float19_99_ne_zero, hne]

/-- Claim C2 (counterexample). The claim states that the catalog view is
recomputed by a fresh provider fetch on every view load. In the code the
fetch runs once, at module import; a view load returns the stored
layout. Concretely: the application starts while the provider catalog is
empty (okBehavior lists no products); later, when the provider catalog
holds a product with two prices (behaviorTwoPrices), a view load still
renders the empty import-time catalog, not the page a fresh fetch would
produce. -/
theorem C2_counterexample :
    (serve_home_view (home_module_startup okBehavior) behaviorTwoPrices).1
      ≠ home_page (home_module_startup behaviorTwoPrices) := by
  intro h
  have hc := congrArg HomePage.catalog h
  simp [serve_home_view, home_page, home_module_startup, fetch_products_data,
    collect_rows, price_rows, create_product_cards, okBehavior,
    behaviorTwoPrices] at hc

/-- Claim C2 (amended). The catalog and analytics data are fetched once,
when the page modules are imported at application startup, and stored in
module-level state; every later view load returns exactly the layout
built from that import-time fetch, issues no provider call, and is
unaffected by the provider state current at the time of the load. -/
theorem C2_amended_layouts_static (b0 bNow bNow2 : StripeBehavior) (now : ℤ) :
    serve_home_view (home_module_startup b0) bNow
      = (home_page (home_module_startup b0), [])
    ∧ serve_home_view (home_module_startup b0) bNow
      = serve_home_view (home_module_startup b0) bNow2
    ∧ serve_analytics_view (analytics_module_startup b0 now) bNow
      = (analytics_page (analytics_module_startup b0 now), [])
    ∧ serve_analytics_view (analytics_module_startup b0 now) bNow
      = serve_analytics_view (analytics_module_startup b0 now) bNow2 :=
  ⟨rfl, rfl, rfl, rfl⟩

/-- Claim C3. A submission whose name is empty or whose amount is empty
or non-numeric (the number input then delivers None) returns the single
inline validation-error output and issues no provider call at all. -/
theorem C3_local_validation (b : StripeBehavior) (inp : CreateFormInput)
    (h : inp.name = "" ∨ inp.amount = none) :
    create_product b inp = (validation_output, []) := by
  rcases h with hn | ha
  · rw [create_product]
    cases ham : inp.amount with
    | none => rfl
    | some a => simp [hn]
  · rw [create_product, ha]

/-- Witness for C3: the pristine form (empty name, no amount) is
rejected locally with no provider call. -/
theorem C3_witness :
    emptyInput.name = "" ∧ create_product okBehavior emptyInput = (validation_output, []) :=
  ⟨rfl, C3_local_validation okBehavior emptyInput (Or.inl rfl)⟩

/-- Claim C9. An amount equal to 0 is falsy in Python, so the guard
(if not name or not amount) sends it down the same validation-error path
as a missing amount: the callback output is identical to the one for an
empty amount, is the validation error, and no provider call is issued —
the 0.50 minimum is never compared against. -/
theorem C9_zero_amount_validation (b : StripeBehavior) (inp : CreateFormInput) :
    create_product b { inp with amount := some 0 }
      = create_product b { inp with amount := none }
    ∧ create_product b { inp with amount := some 0 } = (validation_output, []) := by
  constructor <;> simp [create_product]

/-- Claim C6. Over any dataframe of succeeded in-window payment records:
the total revenue equals the sum of the per-day sums of the grouping by
calendar date; the displayed average transaction is the total divided by
the count, with 0 for an empty window; and the reported average
transactions per day divides the total count by the fixed denominator
30, not by the number of days that have data. -/
theorem C6_aggregation_identities (df : List PaymentRecord) :
    total_revenue df = ((dates_of df).map (fun d => day_sum df d)).sum
    ∧ avg_transaction df
        = (if df.length = 0 then 0 else total_revenue df / (df.length : ℚ))
    ∧ (df ≠ [] → (insights_of df).avg_per_day = some ((df.length : ℚ) / 30)) := by
  refine ⟨?_, ?_, ?_⟩
  · by_cases hemp : df = []
    · subst hemp; simp [total_revenue, dates_of]
    · rw [total_revenue, if_neg (by simpa using hemp)]
      exact (day_sum_partition (dates_of df) df (List.nodup_dedup _)
        (fun r hr => List.mem_dedup.mpr (List.mem_map_of_mem _ hr))).symm
  · by_cases hemp : df = []
    · subst hemp; simp [avg_transaction, total_revenue]
    · have hlen : ¬ df.length = 0 := fun h => hemp (List.length_eq_zero.mp h)
      rw [avg_transaction, if_neg (by simpa using hemp), if_neg hlen,
        total_revenue, if_neg (by simpa using hemp)]
  · intro hne
    simp [insights_of, hne]

/-- Witness for C6: a one-record window reports 1/30 average
transactions per day. -/
theorem C6_witness :
    exDf ≠ [] ∧ (insights_of exDf).avg_per_day = some ((exDf.length : ℚ) / 30) :=
  ⟨by simp [exDf], (C6_aggregation_identities exDf).2.2 (by simp [exDf])⟩

/-- Claim C10. On every non-successful submission — local validation
failure, a provider error at either create step, or an unexpected
error — the callback writes dash.no_update to the recently-created list
and to all seven form-field Outputs, so applying the callback result to
any form state leaves the state exactly as it was; only the message area
changes. -/
theorem C10_failure_leaves_form_unchanged (b : StripeBehavior) (inp : CreateFormInput)
    (h : (create_product b inp).1.message.isSuccess = false) :
    (create_product b inp).1.recent = Upd.noUpdate
    ∧ (create_product b inp).1.name = Upd.noUpdate
    ∧ (create_product b inp).1.description = Upd.noUpdate
    ∧ (create_product b inp).1.image = Upd.noUpdate
    ∧ (create_product b inp).1.amount = Upd.noUpdate
    ∧ (create_product b inp).1.nickname = Upd.noUpdate
    ∧ (create_product b inp).1.meta_key = Upd.noUpdate
    ∧ (create_product b inp).1.meta_value = Upd.noUpdate
    ∧ ∀ st : FormState, apply_create_output st (create_product b inp).1 = st := by
  rcases create_product_failure_form b inp h with ⟨m, hm⟩
  rw [hm]
  exact ⟨rfl, rfl, rfl, rfl, rfl, rfl, rfl, rfl, fun st => rfl⟩

/-- Witness for C10: the empty-form submission fails, and applying its
output to any form state (here the dirty state st7) changes nothing. -/
theorem C10_witness :
    (create_product okBehavior emptyInput).1.message.isSuccess = false
    ∧ apply_create_output st7 (create_product okBehavior emptyInput).1 = st7 := by
  have h : (create_product okBehavior emptyInput).1.message.isSuccess = false := rfl
  exact ⟨h, (C10_failure_leaves_form_unchanged okBehavior emptyInput h).2.2.2.2.2.2.2.2 st7⟩

/-- Claim C4 (counterexample). The claim states that every buy action on
a catalog card creates a session for that card's price. The handler only
receives the cumulative click counts and picks the first positive index.
Concretely: the first card's button was clicked earlier; the user now
clicks the second card's button, raising the counts to [1, 1]; the
session is created for the first card's price price_a, although the
clicked card's price is price_b. -/
theorem C4_counterexample :
    ((handle_buy_button okBehavior (home_module_startup behaviorTwoPrices) [1, 1]).2.map
        (fun c => match c with
          | StripeCall.sessionCreate sd => some (sd.line_items, sd.mode)
          | _ => none))
      = [some ([("price_a", 1)], "payment")]
    ∧ ((home_module_startup behaviorTwoPrices).products_df[1]?).map
        (fun r => r.price_id) = some "price_b"
    ∧ ("price_a" : String) ≠ "price_b" := by
  refine ⟨?_, ?_, by decide⟩
  · simp [handle_buy_button, first_clicked, home_module_startup,
      fetch_products_data, collect_rows, price_rows, behaviorTwoPrices,
      okBehavior, buy_session_data, priceA, priceB, prodW]
  · simp [home_module_startup, fetch_products_data, collect_rows, price_rows,
      behaviorTwoPrices, okBehavior, priceA, priceB, prodW]

/-- Claim C4 (amended). The buy handler selects the first card index
whose cumulative click count is positive — this is the clicked card only
when no earlier card's button has ever been clicked — and creates, for
that card, a checkout session with exactly one line item (that card's
price id, quantity 1), mode subscription exactly when that card's price
is recurring, and the fixed success/cancel redirect URLs back to the
catalog root with the success=true / canceled=true markers. -/
theorem C4_amended_first_clicked (b : StripeBehavior) (m : HomeModule)
    (clicks : List ℕ) (i : ℕ) (row : ProductRow) (s : SessionObj)
    (hfirst : first_clicked clicks = some i)
    (hrow : m.products_df[i]? = some row)
    (hsess : b.sessionCreate (buy_session_data row) = .ok s) :
    handle_buy_button b m clicks
      = (some s.url, [StripeCall.sessionCreate (buy_session_data row)])
    ∧ (buy_session_data row).line_items = [(row.price_id, 1)]
    ∧ (buy_session_data row).mode
        = (if row.recurring = "Yes" then "subscription" else "payment")
    ∧ (buy_session_data row).success_url = "http://127.0.0.1:2245/?success=true"
    ∧ (buy_session_data row).cancel_url = "http://127.0.0.1:2245/?canceled=true" := by
  have hall := first_clicked_not_all_zero clicks i hfirst
  refine ⟨?_, rfl, rfl, rfl, rfl⟩
  simp [handle_buy_button, hall, hfirst, hrow, hsess]

/-- Witness for C4: with a single card whose button was just clicked,
the session is created for that card's price. -/
theorem C4_witness :
    first_clicked [1] = some 0
    ∧ mFix.products_df[0]? = some rowFix
    ∧ okBehavior.sessionCreate (buy_session_data rowFix) = .ok sessW
    ∧ handle_buy_button okBehavior mFix [1]
        = (some sessW.url, [StripeCall.sessionCreate (buy_session_data rowFix)]) := by
  have h1 : first_clicked [1] = some 0 := by simp [first_clicked]
  have h2 : mFix.products_df[0]? = some rowFix := rfl
  have h3 : okBehavior.sessionCreate (buy_session_data rowFix) = .ok sessW := rfl
  exact ⟨h1, h2, h3,
    (C4_amended_first_clicked okBehavior mFix [1] 0 rowFix sessW h1 h2 h3).1⟩

/-- Claim C5. Whenever a run of the create_product callback issues a
Price.create call, the call log begins with a Product.create that the
provider answered successfully, the Price.create follows it, and the
submitted price data references exactly the returned product's id. -/
theorem C5_price_only_after_product (b : StripeBehavior) (inp : CreateFormInput)
    (pr : PriceData)
    (hmem : StripeCall.priceCreate pr ∈ (create_product b inp).2) :
    ∃ a product rest, inp.amount = some a
      ∧ b.productCreate (product_data inp) = .ok product
      ∧ (create_product b inp).2
          = StripeCall.productCreate (product_data inp)
              :: StripeCall.priceCreate pr :: rest
      ∧ pr = price_data inp product (amount_cents a)
      ∧ pr.product = product.id := by
  rcases create_product_log b inp with h | ⟨e, he, h⟩ | ⟨a, product, rest, ha, hpc, hlog, hrest⟩
  · rw [h] at hmem; simp at hmem
  · rw [h] at hmem; simp at hmem
  · rw [hlog] at hmem
    rcases List.mem_cons.mp hmem with h1 | h1
    · exact absurd h1 (by simp)
    · rcases List.mem_cons.mp h1 with h2 | h2
      · injection h2 with h3
        refine ⟨a, product, rest, ha, hpc, ?_, h3, ?_⟩
        · rw [h3]; exact hlog
        · rw [h3]; rfl
      · rcases hrest with hr | hr
        · rw [hr] at h2; simp at h2
        · rw [hr] at h2
          exact absurd h2 (fetch_recent_no_price_create b pr)

/-- Witness for C5: a valid submission against a provider on which both
creates succeed logs the Price.create after the successful
Product.create, referencing its id. -/
theorem C5_witness :
    StripeCall.priceCreate (price_data (widget_input (some 1)) prodW (amount_cents 1))
      ∈ (create_product okBehavior (widget_input (some 1))).2
    ∧ ∃ a product rest, (widget_input (some 1)).amount = some a
        ∧ okBehavior.productCreate (product_data (widget_input (some 1))) = .ok product
        ∧ (create_product okBehavior (widget_input (some 1))).2
            = StripeCall.productCreate (product_data (widget_input (some 1)))
                :: StripeCall.priceCreate
                     (price_data (widget_input (some 1)) prodW (amount_cents 1)) :: rest
        ∧ price_data (widget_input (some 1)) prodW (amount_cents 1)
            = price_data (widget_input (some 1)) product (amount_cents a)
        ∧ (price_data (widget_input (some 1)) prodW (amount_cents 1)).product
            = product.id := by
  have hne : ("Widget" : String) ≠ "" := by decide
  have hm : StripeCall.priceCreate
      (price_data (widget_input (some 1)) prodW (amount_cents 1))
      ∈ (create_product okBehavior (widget_input (some 1))).2 := by
    simp [create_product, widget_input, emptyInput, okBehavior,
      fetch_recent_products, hne]
  exact ⟨hm, C5_price_only_after_product okBehavior (widget_input (some 1)) _ hm⟩

/-- Claim C7 (counterexample). The claim states that a fully successful
submission clears all form fields. The callback has no Outputs for the
price-type radio, the billing-interval dropdown or the currency
dropdown, so these form fields survive. Concretely: submitting the st7
form (recurring, currency eur) succeeds, yet afterwards the currency
component still holds eur — neither cleared nor reset to the usd
default — and the price type still holds recurring. -/
theorem C7_counterexample :
    (create_product okBehavior (form_input st7)).1.message.isSuccess = true
    ∧ (apply_create_output st7 (create_product okBehavior (form_input st7)).1).currency
        = "eur"
    ∧ (apply_create_output st7 (create_product okBehavior (form_input st7)).1).price_type
        = "recurring"
    ∧ ("eur" : String) ≠ "" ∧ ("eur" : String) ≠ "usd" := by
  exact ⟨rfl, rfl, rfl, by decide, by decide⟩

/-- Claim C7 (amended). On a fully successful submission the seven
text/number form components (name, description, image, amount, nickname,
metadata key and value) are cleared, while the price-type, interval and
currency selections are left untouched (they are not Outputs of the
callback); the confirmation summarizes the product id and name, the
price id, and the entered amount with the uppercased currency, with a
per-interval suffix exactly when the price type is recurring. -/
theorem C7_amended_success_output (b : StripeBehavior) (st : FormState) (a : ℚ)
    (product : ProductObj) (price : PriceObj)
    (hname : st.name ≠ "") (ham : st.amount = some a) (ha0 : a ≠ 0)
    (hp : b.productCreate (product_data (form_input st)) = .ok product)
    (hpr : b.priceCreate (price_data (form_input st) product (amount_cents a))
        = .ok price) :
    (create_product b (form_input st)).1.message
      = CreateMessage.success
          { product_id := product.id, product_name := product.name
            price_id := price.id, amount_shown := a
            currency_shown := st.currency.toUpper
            per_interval := if st.price_type = "recurring" then some st.interval
              else none }
    ∧ apply_create_output st (create_product b (form_input st)).1
        = { st with
            name := "", description := "", image := "", amount := none,
            nickname := "", meta_key := "", meta_value := "" }
    ∧ (apply_create_output st (create_product b (form_input st)).1).price_type
        = st.price_type
    ∧ (apply_create_output st (create_product b (form_input st)).1).interval
        = st.interval
    ∧ (apply_create_output st (create_product b (form_input st)).1).currency
        = st.currency := by
  have hguard : ¬(st.name = "" ∨ a = 0) := not_or.mpr ⟨hname, ha0⟩
  have hproj : (form_input st).name = st.name ∧ (form_input st).amount = st.amount
      ∧ (form_input st).currency = st.currency
      ∧ (form_input st).price_type = st.price_type
      ∧ (form_input st).interval = st.interval := ⟨rfl, rfl, rfl, rfl, rfl⟩
  refine ⟨?_, ?_, ?_, ?_, ?_⟩ <;>
    simp [create_product, hproj, ham, hguard, hp, hpr, apply_create_output]

/-- Witness for C7: the st7 submission succeeds and leaves exactly the
selection components untouched while the text fields are cleared. -/
theorem C7_witness :
    st7.name ≠ "" ∧ st7.amount = some 1 ∧ ((1:ℚ) ≠ 0)
    ∧ apply_create_output st7 (create_product okBehavior (form_input st7)).1
        = { st7 with
            name := "", description := "", image := "", amount := none,
            nickname := "", meta_key := "", meta_value := "" } := by
  have hname : st7.name ≠ "" := by decide
  have ham : st7.amount = some 1 := rfl
  have ha0 : (1:ℚ) ≠ 0 := one_ne_zero
  exact ⟨hname, ham, ha0,
    (C7_amended_success_output okBehavior st7 1 prodW priceW hname ham ha0
      rfl rfl).2.1⟩

/-- Claim C8 (counterexample). The claim states that for every run of
the system an absent or malformed credential is detected before any
provider call and reported as a distinct startup error. In the dashboard
app there is no such check: booting with an empty environment installs
api_key = None, yet the catalog fetch still runs against the provider
(here one that would answer — its data appears in the page) and no error
of any kind, let alone a distinct startup error, is reported. -/
theorem C8_counterexample :
    (app_boot envNone (fun _ => behaviorTwoPrices) 0).config.api_key = none
    ∧ (app_boot envNone (fun _ => behaviorTwoPrices) 0).home.error_message = none
    ∧ (app_boot envNone (fun _ => behaviorTwoPrices) 0).home.products_df ≠ [] := by
  refine ⟨rfl, rfl, ?_⟩
  simp [app_boot, app_startup, home_module_startup, fetch_products_data,
    collect_rows, price_rows, behaviorTwoPrices, okBehavior, envNone]

/-- Claim C8 (amended). Only the standalone connectivity-check script
validates the credential before any provider call: with no key, or with
a key matching neither the sk_test_ nor the sk_live_ format, it exits
with a distinct startup result and an empty call log. The dashboard app
itself installs the environment value unchecked and unconditionally runs
the page fetches against the provider as seen through whatever
credential was installed. -/
theorem C8_amended_checks (env : Env) (b : StripeBehavior)
    (sdk : Option String → StripeBehavior) (now : ℤ) :
    (env "STRIPE_SECRET_KEY" = none →
      stripe_api_basics_run env b = (.exitNoKey, []))
    ∧ (∀ k, env "STRIPE_SECRET_KEY" = some k →
        k.startsWith "sk_test_" = false → k.startsWith "sk_live_" = false →
        stripe_api_basics_run env b = (.exitInvalidKey, []))
    ∧ (app_boot env sdk now).config.api_key = env "STRIPE_SECRET_KEY"
    ∧ (app_boot env sdk now).home
        = home_module_startup (sdk (env "STRIPE_SECRET_KEY"))
    ∧ (app_boot env sdk now).analytics
        = analytics_module_startup (sdk (env "STRIPE_SECRET_KEY")) now := by
  refine ⟨?_, ?_, rfl, rfl, rfl⟩
  · intro h; rw [stripe_api_basics_run, h]
  · intro k hk h1 h2
    simp [stripe_api_basics_run, hk, h1, h2]

/-- Witness for C8: with an empty environment the connectivity check
exits before any provider call. -/
theorem C8_witness :
    envNone "STRIPE_SECRET_KEY" = none
    ∧ stripe_api_basics_run envNone okBehavior = (.exitNoKey, []) :=
  ⟨rfl, (C8_amended_checks envNone okBehavior (fun _ => okBehavior) 0).1 rfl⟩

end StripeTutorial
